import Mathlib

/-!
Verification development for the DQ notification formatter
(src/lambda/dq_notification_formatter.py).

The Python module has two functions:

* `get_execution_time(start_time, end_time)` formats the difference of two
  datetimes into a duration string, and
* `lambda_handler(event, context)` builds a notification (header block,
  subject, execution time, one line per rule result), fetches the quality
  result from Glue by result id, publishes subject and body to SNS, and
  wraps any exception in a `ValueError` with a fixed message.

The embedding below is shallow and executable:

* timestamps are modelled as `Int` seconds since an epoch; `end - start`
  gives a Python `timedelta` whose `.days` is floor division by 86400 and
  whose `.seconds` is the non-negative remainder, modelled with `Int.fdiv`
  and `Int.emod`;
* a Python dict access `d['k']` on a possibly-missing key is modelled by an
  `Option` field read through `dictGet`, which raises `PyErr.keyError`;
  `lst[0]` is `listGet0` (IndexError on empty); `environment.upper()` on a
  missing environment variable is `upperOf` (AttributeError on `none`);
* the two boto3 calls are injected capabilities: `glue` (result id to
  quality result) and `publish` (publish call to acknowledgment), each
  returning `Except PyErr`;
* `lambda_handler` returns its result together with the trace of lookup
  calls and publish calls it performed, so that claims about "no publish
  after a failure" are statements about the trace.
-/

namespace DQFormatter

/-- One Python-level exception value, as far as this module can observe it. -/
inductive PyErr where
  | keyError (key : String)
  | indexError
  | attributeError (msg : String)
  | clientError (msg : String)
  deriving DecidableEq, Repr

/-- Python dict access `d['k']`: the value when the key is present,
`KeyError` otherwise. -/
def dictGet {α : Type} (entry : Option α) (key : String) : Except PyErr α :=
  match entry with
  | some v => Except.ok v
  | none => Except.error (PyErr.keyError key)

/-- Python list indexing `lst[0]`: head of the list, `IndexError` on empty. -/
def listGet0 {α : Type} : List α → Except PyErr α
  | x :: _ => Except.ok x
  | [] => Except.error PyErr.indexError

/-- Python `str.upper`, modelled as per-character upper-casing. -/
def pyUpper (s : String) : String := String.mk (s.data.map Char.toUpper)

/-- Python `environment.upper()` where `environment` came from
`os.environ.get`: upper-cases the string when present, raises
`AttributeError` when the variable was absent (value `None`). -/
def upperOf : Option String → Except PyErr String
  | some s => Except.ok (pyUpper s)
  | none => Except.error (PyErr.attributeError "NoneType object has no attribute upper")

/-- The `event['detail']['context']` sub-dictionary; each field may be
absent. -/
structure EventContext where
  contextType? : Option String
  tableName? : Option String
  databaseName? : Option String
  runId? : Option String
  deriving DecidableEq, Repr

/-- The `event['detail']` sub-dictionary; each field may be absent.  Field
values reaching the message pass through `str(...)`, so they are modelled
directly as display strings. -/
structure EventDetail where
  context? : Option EventContext
  rulesetNames? : Option (List String)
  resultId? : Option String
  state? : Option String
  score? : Option String
  numRulesSucceeded? : Option String
  numRulesFailed? : Option String
  numRulesSkipped? : Option String
  deriving DecidableEq, Repr

/-- The incoming event. -/
structure Event where
  detail? : Option EventDetail
  deriving DecidableEq, Repr

/-- One element of `response['RuleResults']`: `Name`, `Result` and
`Description` are always present in the response, `EvaluationMessage` may be
absent (the code tests `'EvaluationMessage' in ruleset`). -/
structure RuleResult where
  Name : String
  Result : String
  Description : String
  EvaluationMessage? : Option String
  deriving DecidableEq, Repr

/-- The Glue `get_data_quality_result` response, at second resolution. -/
structure QualityResult where
  StartedOn : Int
  CompletedOn : Int
  RuleResults : List RuleResult
  deriving DecidableEq, Repr

/-- The two configuration values read from the process environment;
`os.environ.get` yields `None` when a variable is absent. -/
structure HandlerEnv where
  ENVIRONMENT? : Option String
  SNS_TOPIC_ARN? : Option String
  deriving DecidableEq, Repr

/-- The arguments of one `sns_client.publish` call. -/
structure PublishCall where
  TopicArn? : Option String
  Message : String
  Subject : String
  deriving DecidableEq, Repr

/-- The `ValueError` raised by the handler: a fixed message plus the
original exception attached as the cause. -/
structure WrappedError where
  message : String
  cause : PyErr
  deriving DecidableEq, Repr

/-- The success return value of the handler. -/
structure Response where
  statusCode : Nat
  body : String
  deriving DecidableEq, Repr

/-- Result of one handler invocation: the returned value or wrapped error,
plus the traces of Glue lookups and SNS publish calls actually performed. -/
structure HandlerOutcome where
  result : Except WrappedError Response
  lookups : List String
  publishes : List PublishCall
  deriving Repr

/-- Embedding of `get_execution_time` (lines 10 to 29 of the source).
`time_difference.days` is floor division of the signed difference by 86400,
`time_difference.seconds` its non-negative remainder; `filter(None, ...)`
drops falsy (empty) strings and `' '.join` interleaves single spaces. -/
def get_execution_time (start_time end_time : Int) : String :=
  let time_difference : Int := end_time - start_time
  let days : Int := Int.fdiv time_difference 86400
  let secondsOfDay : Nat := (Int.emod time_difference 86400).toNat
  let hours : Nat := secondsOfDay / 3600
  let remainder : Nat := secondsOfDay % 3600
  let minutes : Nat := remainder / 60
  let seconds : Nat := remainder % 60
  String.intercalate " " (List.filter (fun s => s ≠ "") [
    if days ≠ 0 then toString days ++ " days" else "",
    if hours ≠ 0 then toString hours ++ " hours" else "",
    if minutes ≠ 0 then toString minutes ++ " minutes" else "",
    if seconds ≠ 0 then toString seconds ++ " seconds" else ""])

/-- Duration formatting written from the specification text, for comparison
with `get_execution_time`: compute the difference; extract whole days; from
the remaining seconds-of-day extract whole hours (dividing by 3600), then
minutes and seconds from the remainder (dividing by 60); emit only the
non-zero components, each suffixed with its unit word, joined by single
spaces, in order days, hours, minutes, seconds. -/
def durationSpec (start_time end_time : Int) : String :=
  let diff : Int := end_time - start_time
  let days : Int := Int.fdiv diff 86400
  let secondsOfDay : Nat := (Int.emod diff 86400).toNat
  let hours : Nat := secondsOfDay / 3600
  let minutes : Nat := secondsOfDay % 3600 / 60
  let seconds : Nat := secondsOfDay % 3600 % 60
  String.intercalate " "
    ((if days = 0 then [] else [toString days ++ " days"]) ++
     (if hours = 0 then [] else [toString hours ++ " hours"]) ++
     (if minutes = 0 then [] else [toString minutes ++ " minutes"]) ++
     (if seconds = 0 then [] else [toString seconds ++ " seconds"]))

/-- The fixed message of the wrapping `ValueError` (line 95). -/
def wrapMsg : String := "ERROR - ran into error while parsing ruleset or publishing to SNS"

/-- The handler success body, `json.dumps('Message published to SNS topic')`. -/
def successBody : String := "\"Message published to SNS topic\""

/-- The report line for one rule result (lines 78 to 80): the
`EvaluationMessage` segment is appended exactly when the field is present. -/
def ruleLine (r : RuleResult) : String :=
  let base : String :=
    "Name: " ++ r.Name ++ "\t\tResult: " ++ r.Result ++ "\t\tDescription: \t" ++ r.Description
  match r.EvaluationMessage? with
  | some msg => base ++ "\t\tEvaluationMessage: " ++ msg
  | none => base

/-- The header block built in the `GLUE_DATA_CATALOG` branch
(lines 50 to 60), in source order. -/
def headerBlock (rulesetName tableName databaseName runId resultId state score nSucc nFail nSkip : String) : String :=
  "Glue Data Quality run details:\n" ++
  "Ruleset Name: " ++ rulesetName ++ "\n" ++
  "Glue Table Name: " ++ tableName ++ "\n" ++
  "Glue Database Name: " ++ databaseName ++ "\n" ++
  "Run ID: " ++ runId ++ "\n" ++
  "Result ID: " ++ resultId ++ "\n" ++
  "State: " ++ state ++ "\n" ++
  "Score: " ++ score ++ "\n" ++
  "No of rules succeeded: " ++ nSucc ++ "\n" ++
  "No of rules failed: " ++ nFail ++ "\n" ++
  "No of rules skipped: " ++ nSkip ++ "\n"

/-- The subject line of line 62, with the environment label already
upper-cased. -/
def subjectLine (envUpper rulesetName : String) : String :=
  "[" ++ envUpper ++ "] Glue DQ Ruleset - " ++ rulesetName ++ " run details"

/-- Everything the handler does before the Glue call (lines 46 to 64):
branch on the context type, build message prefix and subject, read the
result id.  Returns `(message prefix, subject, result id)`.  Evaluation
order follows the source: in the catalog branch all header fields are read
before `environment.upper()` is evaluated, and `resultId` is read at
line 55 before the subject line. -/
def preLookup (environment : Option String) (event : Event) :
    Except PyErr (String × String × String) := do
  let detail ← dictGet event.detail? "detail"
  let context ← dictGet detail.context? "context"
  let contextType ← dictGet context.contextType? "contextType"
  let pair ←
    if contextType = "GLUE_DATA_CATALOG" then do
      let rulesetNames ← dictGet detail.rulesetNames? "rulesetNames"
      let rulesetName ← listGet0 rulesetNames
      let tableName ← dictGet context.tableName? "tableName"
      let databaseName ← dictGet context.databaseName? "databaseName"
      let runId ← dictGet context.runId? "runId"
      let resultIdField ← dictGet detail.resultId? "resultId"
      let state ← dictGet detail.state? "state"
      let score ← dictGet detail.score? "score"
      let nSucc ← dictGet detail.numRulesSucceeded? "numRulesSucceeded"
      let nFail ← dictGet detail.numRulesFailed? "numRulesFailed"
      let nSkip ← dictGet detail.numRulesSkipped? "numRulesSkipped"
      let envU ← upperOf environment
      pure (headerBlock rulesetName tableName databaseName runId resultIdField state score nSucc nFail nSkip,
            subjectLine envU rulesetName)
    else
      pure ("", "")
  let resultId ← dictGet detail.resultId? "resultId"
  pure (pair.1, pair.2, resultId)

/-- The part of the message appended after the Glue call (lines 71 to 87):
execution time line, section banner, then one line per rule result in
response order. -/
def bodyTail (response : QualityResult) : String :=
  "Ruleset execution time: " ++
    get_execution_time response.StartedOn response.CompletedOn ++ "\n" ++
  "\n\nRuleset details evaluation steps results:\n\n" ++
  String.join (response.RuleResults.map (fun r => "\n" ++ ruleLine r))

/-- The try-block up to (but excluding) the publish call: pre-lookup work,
then the Glue lookup, then message assembly.  Returns the publish call the
handler will make (or the first exception), paired with the trace of Glue
lookups performed. -/
def buildMessage (env : HandlerEnv) (glue : String → Except PyErr QualityResult)
    (event : Event) : Except PyErr PublishCall × List String :=
  match preLookup env.ENVIRONMENT? event with
  | Except.error e => (Except.error e, [])
  | Except.ok (messagePrefix, subject, resultId) =>
    match glue resultId with
    | Except.error e => (Except.error e, [resultId])
    | Except.ok response =>
      (Except.ok { TopicArn? := env.SNS_TOPIC_ARN?,
                   Message := messagePrefix ++ bodyTail response,
                   Subject := subject }, [resultId])

/-- Embedding of `lambda_handler` (lines 33 to 100): run the try-block,
publish once on success, wrap any exception in a `ValueError` with the
fixed message and the original cause.  The publish call is recorded in the
trace even when the publish itself raises. -/
def lambda_handler (env : HandlerEnv) (glue : String → Except PyErr QualityResult)
    (publish : PublishCall → Except PyErr Unit) (event : Event) : HandlerOutcome :=
  match buildMessage env glue event with
  | (Except.error e, ids) =>
    { result := Except.error { message := wrapMsg, cause := e },
      lookups := ids, publishes := [] }
  | (Except.ok call, ids) =>
    match publish call with
    | Except.error e =>
      { result := Except.error { message := wrapMsg, cause := e },
        lookups := ids, publishes := [call] }
    | Except.ok _ =>
      { result := Except.ok { statusCode := 200, body := successBody },
        lookups := ids, publishes := [call] }

/-- A fully-populated event, every field present. -/
def mkEvent (ct tn db rid : String) (names : List String)
    (resId st sc ns nf nk : String) : Event :=
  Event.mk (some (EventDetail.mk
    (some (EventContext.mk (some ct) (some tn) (some db) (some rid)))
    (some names) (some resId) (some st) (some sc) (some ns) (some nf) (some nk)))

/-- A concrete quality result for the end-to-end scenario of the spec: one
passing rule and one failing rule that carries an evaluation message; the
run lasted 2 days, 2 hours, 5 minutes and 9 seconds. -/
def qrDemo : QualityResult := QualityResult.mk 0 180309
  [RuleResult.mk "RuleA" "PASS" "Completeness of column A" none,
   RuleResult.mk "RuleB" "FAIL" "Completeness of column B" (some "Value below threshold")]

/-- A concrete well-formed catalog event with ruleset name `myRuleset`. -/
def evDemo : Event := mkEvent "GLUE_DATA_CATALOG" "myTable" "myDb" "run-1" ["myRuleset"]
  "res-1" "SUCCEEDED" "1.0" "1" "1" "0"

/-- The handler outcome on the end-to-end scenario: environment `prod`,
successful lookup returning `qrDemo`, successful publish. -/
def outDemo : HandlerOutcome :=
  lambda_handler (HandlerEnv.mk (some "prod") (some "topic-arn"))
    (fun _ => Except.ok qrDemo) (fun _ => Except.ok ()) evDemo

/-- Appending a non-empty string keeps a string non-empty. -/
theorem append_ne_empty (s t : String) (ht : t ≠ "") : s ++ t ≠ "" := by
  intro hc
  apply ht
  have hdata : s.data ++ t.data = ([] : List Char) := congrArg String.data hc
  exact String.ext (List.append_eq_nil.mp hdata).2

/-- Joining no strings yields the empty string. -/
theorem join_nil : String.join [] = "" := rfl

/-- The empty string is a left identity of append. -/
theorem empty_append (s : String) : "" ++ s = s := rfl

/-- Joining a non-empty list of strings peels off its head. -/
theorem join_cons (a : String) (l : List String) :
    String.join (a :: l) = a ++ String.join l := by
  apply String.ext
  simp [String.join_eq]

/-- Splitting a join of mapped strings around a distinguished element. -/
theorem join_split (f : RuleResult → String) (l1 l2 : List RuleResult) (r : RuleResult) :
    String.join ((l1 ++ r :: l2).map f)
      = String.join (l1.map f) ++ f r ++ String.join (l2.map f) := by
  induction l1 with
  | nil => simp only [List.nil_append, List.map_cons, join_cons, List.map_nil, join_nil,
      empty_append]
  | cons a l ih =>
    simp only [List.cons_append, List.map_cons, join_cons, ih, String.append_assoc]

/-- Dropping the empty string and keeping a guarded component, for each of
the four components of the duration string: the filtered-join form of the
source equals the list-append form of the specification. -/
theorem duration_core (d : Int) (h m s2 : Nat) :
    String.intercalate " " (List.filter (fun x => x ≠ "")
      [if d ≠ 0 then toString d ++ " days" else "",
       if h ≠ 0 then toString h ++ " hours" else "",
       if m ≠ 0 then toString m ++ " minutes" else "",
       if s2 ≠ 0 then toString s2 ++ " seconds" else ""])
    = String.intercalate " "
      ((if d = 0 then [] else [toString d ++ " days"]) ++
       (if h = 0 then [] else [toString h ++ " hours"]) ++
       (if m = 0 then [] else [toString m ++ " minutes"]) ++
       (if s2 = 0 then [] else [toString s2 ++ " seconds"])) := by
  have Hd : toString d ++ " days" ≠ "" := append_ne_empty _ _ (by decide)
  have Hh : toString h ++ " hours" ≠ "" := append_ne_empty _ _ (by decide)
  have Hm : toString m ++ " minutes" ≠ "" := append_ne_empty _ _ (by decide)
  have Hs : toString s2 ++ " seconds" ≠ "" := append_ne_empty _ _ (by decide)
  by_cases h1 : d = 0 <;> by_cases h2 : h = 0 <;> by_cases h3 : m = 0 <;> by_cases h4 : s2 = 0 <;>
    simp [h1, h2, h3, h4, List.filter, Hd, Hh, Hm, Hs]

/-- The source duration formatter agrees with the specification form on all
inputs. -/
theorem duration_equiv (s e : Int) : get_execution_time s e = durationSpec s e :=
  duration_core (Int.fdiv (e - s) 86400) ((Int.emod (e - s) 86400).toNat / 3600)
    ((Int.emod (e - s) 86400).toNat % 3600 / 60) ((Int.emod (e - s) 86400).toNat % 3600 % 60)

/-- When the try-block fails before the publish call, the handler raises the
wrapped error and the publish trace is empty. -/
theorem handler_of_build_err (env : HandlerEnv) (glue : String → Except PyErr QualityResult)
    (pub : PublishCall → Except PyErr Unit) (event : Event) (e : PyErr) (ids : List String)
    (h : buildMessage env glue event = (Except.error e, ids)) :
    lambda_handler env glue pub event
      = HandlerOutcome.mk (Except.error (WrappedError.mk wrapMsg e)) ids [] := by
  simp [lambda_handler, h]

/-- When the try-block reaches the publish call, the handler performs exactly
that call; it then succeeds or raises the wrapped publish error. -/
theorem handler_of_build_ok (env : HandlerEnv) (glue : String → Except PyErr QualityResult)
    (pub : PublishCall → Except PyErr Unit) (event : Event) (call : PublishCall) (ids : List String)
    (h : buildMessage env glue event = (Except.ok call, ids)) :
    (lambda_handler env glue pub event).lookups = ids ∧
    (lambda_handler env glue pub event).publishes = [call] ∧
    (pub call = Except.ok () →
      lambda_handler env glue pub event
        = HandlerOutcome.mk (Except.ok (Response.mk 200 successBody)) ids [call]) ∧
    (∀ e2 : PyErr, pub call = Except.error e2 →
      lambda_handler env glue pub event
        = HandlerOutcome.mk (Except.error (WrappedError.mk wrapMsg e2)) ids [call]) := by
  refine ⟨?_, ?_, ?_, ?_⟩
  · cases hp : pub call <;> simp [lambda_handler, h, hp]
  · cases hp : pub call <;> simp [lambda_handler, h, hp]
  · intro hp; simp [lambda_handler, h, hp]
  · intro e2 hp; simp [lambda_handler, h, hp]

/-- A failure before the lookup leaves the lookup trace empty. -/
theorem buildMessage_of_pre_err (env : HandlerEnv) (glue : String → Except PyErr QualityResult)
    (event : Event) (e : PyErr) (h : preLookup env.ENVIRONMENT? event = Except.error e) :
    buildMessage env glue event = (Except.error e, []) := by
  simp [buildMessage, h]

/-- A lookup failure is propagated after exactly one lookup. -/
theorem buildMessage_of_glue_err (env : HandlerEnv) (glue : String → Except PyErr QualityResult)
    (event : Event) (mp subj rid : String) (e : PyErr)
    (h : preLookup env.ENVIRONMENT? event = Except.ok (mp, subj, rid))
    (hg : glue rid = Except.error e) :
    buildMessage env glue event = (Except.error e, [rid]) := by
  simp [buildMessage, h, hg]

/-- A successful lookup yields the assembled publish call after exactly one
lookup. -/
theorem buildMessage_of_glue_ok (env : HandlerEnv) (glue : String → Except PyErr QualityResult)
    (event : Event) (mp subj rid : String) (resp : QualityResult)
    (h : preLookup env.ENVIRONMENT? event = Except.ok (mp, subj, rid))
    (hg : glue rid = Except.ok resp) :
    buildMessage env glue event
      = (Except.ok (PublishCall.mk env.SNS_TOPIC_ARN? (mp ++ bodyTail resp) subj), [rid]) := by
  simp [buildMessage, h, hg]

/-- On a fully-populated catalog event the pre-lookup phase produces the
header block, the subject line, and the result id. -/
theorem preLookup_glue (envStr tn db rid name : String) (rest : List String)
    (resId st sc ns nf nk : String) :
    preLookup (some envStr)
        (mkEvent "GLUE_DATA_CATALOG" tn db rid (name :: rest) resId st sc ns nf nk)
      = Except.ok (headerBlock name tn db rid resId st sc ns nf nk,
                   subjectLine (pyUpper envStr) name, resId) := rfl

/-- On a fully-populated event of any other context type the pre-lookup
phase yields an empty message prefix, an empty subject, and the result id,
for any environment value. -/
theorem preLookup_other (ct : String) (hct : ct ≠ "GLUE_DATA_CATALOG")
    (tn db rid : String) (names : List String) (resId st sc ns nf nk : String)
    (environment : Option String) :
    preLookup environment (mkEvent ct tn db rid names resId st sc ns nf nk)
      = Except.ok ("", "", resId) := by
  simp [preLookup, mkEvent, dictGet, hct, Except.bind, Bind.bind, Except.map, Functor.map,
        pure, Except.pure]

/-- With the environment label absent, the pre-lookup phase fails on every
event whose context type is the catalog one: either some field access fails
first, or upper-casing the missing label fails. -/
theorem preLookup_none_env_catalog (event : Event) (d : EventDetail) (c : EventContext)
    (hd : event.detail? = some d) (hc : d.context? = some c)
    (hct : c.contextType? = some "GLUE_DATA_CATALOG") :
    ∃ e : PyErr, preLookup none event = Except.error e := by
  rcases event with ⟨detailOpt⟩
  simp only at hd
  subst hd
  rcases d with ⟨cOpt, rnOpt, riOpt, stOpt, scOpt, nsOpt, nfOpt, nkOpt⟩
  simp only at hc
  subst hc
  rcases c with ⟨ctOpt, tnOpt, dbOpt, ridOpt⟩
  simp only at hct
  subst hct
  rcases rnOpt with _ | rn
  · exact ⟨_, rfl⟩
  · rcases rn with _ | ⟨name, rest⟩
    · exact ⟨_, rfl⟩
    · rcases tnOpt with _ | tn
      · exact ⟨_, rfl⟩
      · rcases dbOpt with _ | db
        · exact ⟨_, rfl⟩
        · rcases ridOpt with _ | rid
          · exact ⟨_, rfl⟩
          · rcases riOpt with _ | ri
            · exact ⟨_, rfl⟩
            · rcases stOpt with _ | st
              · exact ⟨_, rfl⟩
              · rcases scOpt with _ | sc
                · exact ⟨_, rfl⟩
                · rcases nsOpt with _ | ns
                  · exact ⟨_, rfl⟩
                  · rcases nfOpt with _ | nf
                    · exact ⟨_, rfl⟩
                    · rcases nkOpt with _ | nk
                      · exact ⟨_, rfl⟩
                      · exact ⟨_, rfl⟩

/-- Claim C1: for every pair of start and end timestamps, the duration
formatter computes the difference, extracts whole days, then whole hours
(dividing the remaining seconds-of-day by 3600), then minutes and seconds
from the remainder (dividing by 60), and returns only the non-zero
components, each suffixed with its unit word, joined by single spaces, in
the fixed order days, hours, minutes, seconds; when every component is zero
(in particular for equal start and end) it returns the empty string; the
spec examples render as "2 days 2 hours 5 minutes 9 seconds" and
"45 seconds". -/
theorem C1_duration_formatting :
    (∀ start_time end_time : Int,
        get_execution_time start_time end_time = durationSpec start_time end_time) ∧
    (∀ t : Int, get_execution_time t t = "") ∧
    get_execution_time 0 (2 * 86400 + 2 * 3600 + 5 * 60 + 9)
      = "2 days 2 hours 5 minutes 9 seconds" ∧
    get_execution_time 0 45 = "45 seconds" := by
  refine ⟨duration_equiv, fun t => ?_, by decide, by decide⟩
  have h1 : Int.emod 0 86400 = 0 := rfl
  have h2 : Int.fdiv 0 86400 = 0 := rfl
  simp [get_execution_time, Int.sub_self, h1, h2]
  rfl

/-- Claim C2: for every event whose contextType is GLUE_DATA_CATALOG the
handler publishes with Subject
"[ENV_UPPER] Glue DQ Ruleset - rulesetName run details" (environment label
upper-cased, first ruleset name) and a body that starts with the header
block listing ruleset name, table name, database name, run id, result id,
state, score, and the succeeded, failed and skipped rule counts in fixed
order; with environment "prod" and ruleset "myRuleset" the Subject is
exactly "[PROD] Glue DQ Ruleset - myRuleset run details". -/
theorem C2_catalog_header_and_subject :
    (∀ (envStr tn db rid name : String) (rest : List String)
       (resId st sc ns nf nk : String) (arn : Option String)
       (qr : QualityResult) (pub : PublishCall → Except PyErr Unit),
      ∃ call : PublishCall,
        (lambda_handler (HandlerEnv.mk (some envStr) arn) (fun _ => Except.ok qr) pub
            (mkEvent "GLUE_DATA_CATALOG" tn db rid (name :: rest) resId st sc ns nf nk)).publishes
          = [call] ∧
        call.Subject
          = "[" ++ pyUpper envStr ++ "] Glue DQ Ruleset - " ++ name ++ " run details" ∧
        call.Message = headerBlock name tn db rid resId st sc ns nf nk ++ bodyTail qr) ∧
    outDemo.publishes.map PublishCall.Subject
      = ["[PROD] Glue DQ Ruleset - myRuleset run details"] := by
  constructor
  · intro envStr tn db rid name rest resId st sc ns nf nk arn qr pub
    have hbm : buildMessage (HandlerEnv.mk (some envStr) arn) (fun _ => Except.ok qr)
        (mkEvent "GLUE_DATA_CATALOG" tn db rid (name :: rest) resId st sc ns nf nk)
        = (Except.ok (PublishCall.mk arn
            (headerBlock name tn db rid resId st sc ns nf nk ++ bodyTail qr)
            (subjectLine (pyUpper envStr) name)), [resId]) := rfl
    exact ⟨_, (handler_of_build_ok _ _ pub _ _ _ hbm).2.1, rfl, rfl⟩
  · decide

/-- Claim C3: for every event, any exception raised during field access,
the lookup call, formatting, or the publish call makes the handler raise
exactly one wrapped error with the fixed message and the original exception
as its cause; every error the handler raises carries the fixed message. -/
theorem C3_error_wrapping :
    ∀ (env : HandlerEnv) (glue : String → Except PyErr QualityResult)
      (pub : PublishCall → Except PyErr Unit) (event : Event) (e : PyErr),
      ((buildMessage env glue event).1 = Except.error e →
        (lambda_handler env glue pub event).result
          = Except.error (WrappedError.mk wrapMsg e)) ∧
      (∀ call : PublishCall, (buildMessage env glue event).1 = Except.ok call →
        pub call = Except.error e →
        (lambda_handler env glue pub event).result
          = Except.error (WrappedError.mk wrapMsg e)) ∧
      (∀ w : WrappedError,
        (lambda_handler env glue pub event).result = Except.error w →
        w.message = wrapMsg) := by
  intro env glue pub event e
  rcases hbm : buildMessage env glue event with ⟨res, ids⟩
  refine ⟨?_, ?_, ?_⟩
  · intro h1
    have h1' : res = Except.error e := h1
    subst h1'
    rw [handler_of_build_err env glue pub event e ids hbm]
  · intro call h1 hp
    have h1' : res = Except.ok call := h1
    subst h1'
    rw [(handler_of_build_ok env glue pub event call ids hbm).2.2.2 e hp]
  · intro w hw
    rcases res with e2 | call
    · rw [handler_of_build_err env glue pub event e2 ids hbm] at hw
      injection hw with hcast
      rw [← hcast]
    · rcases hp : pub call with e3 | u
      · rw [(handler_of_build_ok env glue pub event call ids hbm).2.2.2 e3 hp] at hw
        injection hw with hcast
        rw [← hcast]
      · cases u
        rw [(handler_of_build_ok env glue pub event call ids hbm).2.2.1 hp] at hw
        cases hw

/-- Witness for C3: an event without a detail key makes the handler raise
the wrapped error with the fixed message and the key error as cause. -/
theorem C3_error_wrapping_witness :
    (lambda_handler (HandlerEnv.mk none none)
        (fun _ => Except.error (PyErr.clientError "boom")) (fun _ => Except.ok ())
        (Event.mk none)).result
      = Except.error (WrappedError.mk wrapMsg (PyErr.keyError "detail")) :=
  (C3_error_wrapping (HandlerEnv.mk none none)
    (fun _ => Except.error (PyErr.clientError "boom")) (fun _ => Except.ok ())
    (Event.mk none) (PyErr.keyError "detail")).1 rfl

/-- Claim C4: for every execution, the publish capability is invoked at
most once, only with the fully assembled message, and never after a prior
failure; in particular a lookup that always fails leaves the publish trace
empty. -/
theorem C4_publish_once :
    ∀ (env : HandlerEnv) (glue : String → Except PyErr QualityResult)
      (pub : PublishCall → Except PyErr Unit) (event : Event),
      (lambda_handler env glue pub event).publishes.length ≤ 1 ∧
      (∀ call : PublishCall, call ∈ (lambda_handler env glue pub event).publishes →
        (buildMessage env glue event).1 = Except.ok call) ∧
      (∀ e : PyErr, (buildMessage env glue event).1 = Except.error e →
        (lambda_handler env glue pub event).publishes = []) ∧
      (∀ err : PyErr,
        (lambda_handler env (fun _ => Except.error err) pub event).publishes = []) := by
  intro env glue pub event
  refine ⟨?_, ?_, ?_, ?_⟩
  · rcases hbm : buildMessage env glue event with ⟨res, ids⟩
    rcases res with e | call
    · rw [handler_of_build_err env glue pub event e ids hbm]
      simp
    · rw [(handler_of_build_ok env glue pub event call ids hbm).2.1]
      simp
  · rcases hbm : buildMessage env glue event with ⟨res, ids⟩
    intro call hc
    rcases res with e | call2
    · rw [handler_of_build_err env glue pub event e ids hbm] at hc
      simp at hc
    · rw [(handler_of_build_ok env glue pub event call2 ids hbm).2.1] at hc
      simp at hc
      subst hc
      rfl
  · rcases hbm : buildMessage env glue event with ⟨res, ids⟩
    intro e h
    have h' : res = Except.error e := h
    subst h'
    rw [handler_of_build_err env glue pub event e ids hbm]
  · intro err
    rcases hpl : preLookup env.ENVIRONMENT? event with e | trip
    · rw [handler_of_build_err env _ pub event e []
        (buildMessage_of_pre_err env _ event e hpl)]
    · rcases trip with ⟨mp, subj, rid⟩
      rw [handler_of_build_err env _ pub event err [rid]
        (buildMessage_of_glue_err env _ event mp subj rid err hpl rfl)]

/-- Witness for C4: on an event without a detail key the publish trace is
empty. -/
theorem C4_publish_once_witness :
    (lambda_handler (HandlerEnv.mk none none)
        (fun _ => Except.ok (QualityResult.mk 0 45 [])) (fun _ => Except.ok ())
        (Event.mk none)).publishes = [] :=
  (C4_publish_once (HandlerEnv.mk none none)
    (fun _ => Except.ok (QualityResult.mk 0 45 [])) (fun _ => Except.ok ())
    (Event.mk none)).2.2.1 (PyErr.keyError "detail") rfl

/-- Claim C5: every rule result is rendered as the line
"Name: {Name}\t\tResult: {Result}\t\tDescription: \t{Description}", with the
segment "\t\tEvaluationMessage: {msg}" appended exactly when the
EvaluationMessage field is present, verbatim; and each rule result of a
fetched quality result contributes its line to the body. -/
theorem C5_rule_line_format :
    ∀ r : RuleResult,
      (r.EvaluationMessage? = none →
        ruleLine r = "Name: " ++ r.Name ++ "\t\tResult: " ++ r.Result ++
          "\t\tDescription: \t" ++ r.Description) ∧
      (∀ msg : String, r.EvaluationMessage? = some msg →
        ruleLine r = "Name: " ++ r.Name ++ "\t\tResult: " ++ r.Result ++
          "\t\tDescription: \t" ++ r.Description ++ "\t\tEvaluationMessage: " ++ msg) ∧
      (∀ response : QualityResult, r ∈ response.RuleResults →
        ∃ pre post : String,
          bodyTail response = pre ++ ("\n" ++ ruleLine r) ++ post) := by
  intro r
  refine ⟨fun hn => ?_, fun msg hs => ?_, fun response hmem => ?_⟩
  · simp [ruleLine, hn]
  · simp [ruleLine, hs]
  · obtain ⟨l1, l2, hsplit⟩ := List.append_of_mem hmem
    refine ⟨"Ruleset execution time: " ++
        get_execution_time response.StartedOn response.CompletedOn ++ "\n" ++
        "\n\nRuleset details evaluation steps results:\n\n" ++
        String.join (l1.map (fun x => "\n" ++ ruleLine x)),
      String.join (l2.map (fun x => "\n" ++ ruleLine x)), ?_⟩
    simp only [bodyTail, hsplit, join_split (fun x => "\n" ++ ruleLine x) l1 l2 r,
      String.append_assoc]

/-- Witness for C5: a rule without an evaluation message renders without the
segment, one with it renders with the segment, and the line appears in the
body built from a result containing the rule. -/
theorem C5_rule_line_format_witness :
    (ruleLine (RuleResult.mk "RuleA" "PASS" "descA" none)
        = "Name: RuleA\t\tResult: PASS\t\tDescription: \tdescA") ∧
    (ruleLine (RuleResult.mk "RuleB" "FAIL" "descB" (some "low"))
        = "Name: RuleB\t\tResult: FAIL\t\tDescription: \tdescB\t\tEvaluationMessage: low") ∧
    (∃ pre post : String,
      bodyTail (QualityResult.mk 0 45 [RuleResult.mk "RuleA" "PASS" "descA" none])
        = pre ++ ("\n" ++ ruleLine (RuleResult.mk "RuleA" "PASS" "descA" none)) ++ post) :=
  ⟨(C5_rule_line_format (RuleResult.mk "RuleA" "PASS" "descA" none)).1 rfl,
   (C5_rule_line_format (RuleResult.mk "RuleB" "FAIL" "descB" (some "low"))).2.1 "low" rfl,
   (C5_rule_line_format (RuleResult.mk "RuleA" "PASS" "descA" none)).2.2
     (QualityResult.mk 0 45 [RuleResult.mk "RuleA" "PASS" "descA" none]) (by simp)⟩

/-- Claim C6: for every event whose contextType differs from
GLUE_DATA_CATALOG, the handler skips the header block, leaves the Subject
empty, and still reads the result id from the event, fetches the quality
result by exactly that identifier, computes the execution time string, and
publishes the resulting message, returning success. -/
theorem C6_non_catalog_processing :
    ∀ ct : String, ct ≠ "GLUE_DATA_CATALOG" →
    ∀ (tn db rid : String) (names : List String) (resId st sc ns nf nk : String)
      (environment arn : Option String) (qr : QualityResult),
      lambda_handler (HandlerEnv.mk environment arn)
          (fun rid2 => if rid2 = resId then Except.ok qr
                       else Except.error (PyErr.clientError "unknown result id"))
          (fun _ => Except.ok ())
          (mkEvent ct tn db rid names resId st sc ns nf nk)
        = HandlerOutcome.mk (Except.ok (Response.mk 200 successBody)) [resId]
            [PublishCall.mk arn (bodyTail qr) ""] := by
  intro ct hct tn db rid names resId st sc ns nf nk environment arn qr
  have hpl := preLookup_other ct hct tn db rid names resId st sc ns nf nk environment
  have hbm := buildMessage_of_glue_ok (HandlerEnv.mk environment arn)
    (fun rid2 => if rid2 = resId then Except.ok qr
                 else Except.error (PyErr.clientError "unknown result id"))
    (mkEvent ct tn db rid names resId st sc ns nf nk) "" "" resId qr hpl (by simp)
  exact (handler_of_build_ok _ _ (fun _ => Except.ok ()) _ _ _ hbm).2.2.1 rfl

/-- Witness for C6: a concrete event with context type OTHER is still looked
up and published with an empty subject and no header. -/
theorem C6_non_catalog_processing_witness :
    lambda_handler (HandlerEnv.mk none (some "arn"))
        (fun rid2 => if rid2 = "res-9" then Except.ok (QualityResult.mk 0 45 [])
                     else Except.error (PyErr.clientError "unknown result id"))
        (fun _ => Except.ok ())
        (mkEvent "OTHER" "t" "d" "r" [] "res-9" "s" "1.0" "1" "0" "0")
      = HandlerOutcome.mk (Except.ok (Response.mk 200 successBody)) ["res-9"]
          [PublishCall.mk (some "arn") (bodyTail (QualityResult.mk 0 45 [])) ""] :=
  C6_non_catalog_processing "OTHER" (by decide) "t" "d" "r" [] "res-9" "s" "1.0" "1" "0" "0"
    none (some "arn") (QualityResult.mk 0 45 [])

/-- Claim C7: whenever every step succeeds the handler returns status code
200 with the JSON-encoded confirmation body; in the end-to-end scenario with
two rule results (one passing, one failing with an evaluation message) the
published body is exactly the header, the duration string
"2 days 2 hours 5 minutes 9 seconds", the section banner, and both rule
lines. -/
theorem C7_success_response :
    (∀ (env : HandlerEnv) (glue : String → Except PyErr QualityResult)
       (pub : PublishCall → Except PyErr Unit) (event : Event)
       (call : PublishCall) (ids : List String),
      buildMessage env glue event = (Except.ok call, ids) →
      pub call = Except.ok () →
      (lambda_handler env glue pub event).result
        = Except.ok (Response.mk 200 successBody)) ∧
    outDemo.result = Except.ok (Response.mk 200 successBody) ∧
    outDemo.publishes.map PublishCall.Message
      = ["Glue Data Quality run details:\nRuleset Name: myRuleset\nGlue Table Name: myTable\nGlue Database Name: myDb\nRun ID: run-1\nResult ID: res-1\nState: SUCCEEDED\nScore: 1.0\nNo of rules succeeded: 1\nNo of rules failed: 1\nNo of rules skipped: 0\nRuleset execution time: 2 days 2 hours 5 minutes 9 seconds\n\n\nRuleset details evaluation steps results:\n\n\nName: RuleA\t\tResult: PASS\t\tDescription: \tCompleteness of column A\nName: RuleB\t\tResult: FAIL\t\tDescription: \tCompleteness of column B\t\tEvaluationMessage: Value below threshold"] := by
  refine ⟨?_, rfl, ?_⟩
  · intro env glue pub event call ids hb hp
    rw [(handler_of_build_ok env glue pub event call ids hb).2.2.1 hp]
  · set_option maxRecDepth 8192 in decide

/-- Witness for C7: the end-to-end scenario returns 200 with the
confirmation body. -/
theorem C7_success_response_witness :
    (lambda_handler (HandlerEnv.mk (some "prod") (some "topic-arn"))
        (fun _ => Except.ok qrDemo) (fun _ => Except.ok ()) evDemo).result
      = Except.ok (Response.mk 200 successBody) :=
  C7_success_response.1 (HandlerEnv.mk (some "prod") (some "topic-arn"))
    (fun _ => Except.ok qrDemo) (fun _ => Except.ok ()) evDemo
    (PublishCall.mk (some "topic-arn")
      (headerBlock "myRuleset" "myTable" "myDb" "run-1" "res-1" "SUCCEEDED" "1.0" "1" "1" "0"
        ++ bodyTail qrDemo)
      (subjectLine (pyUpper "prod") "myRuleset"))
    ["res-1"] rfl rfl

/-- Claim C8 (implicit): the duration formatter always uses the plural unit
words regardless of the component value, so one second renders "1 seconds",
one minute "1 minutes", one hour "1 hours", one day "1 days", and
one of each "1 days 1 hours 1 minutes 1 seconds". -/
theorem C8_plural_units :
    get_execution_time 0 1 = "1 seconds" ∧
    get_execution_time 0 60 = "1 minutes" ∧
    get_execution_time 0 3600 = "1 hours" ∧
    get_execution_time 0 86400 = "1 days" ∧
    get_execution_time 0 90061 = "1 days 1 hours 1 minutes 1 seconds" :=
  ⟨by decide, by decide, by decide, by decide, by decide⟩

/-- Claim C9 (implicit): for every fetched quality result the published
body contains, after any header, the line "Ruleset execution time: ..."
then the fixed section banner, then exactly one formatted line per rule
result, in the order of the RuleResults sequence. -/
theorem C9_body_structure :
    ∀ (ct tn db rid name : String) (rest : List String)
      (resId st sc ns nf nk envStr : String) (arn : Option String)
      (qr : QualityResult) (pub : PublishCall → Except PyErr Unit),
      ∃ header : String,
        (lambda_handler (HandlerEnv.mk (some envStr) arn) (fun _ => Except.ok qr) pub
            (mkEvent ct tn db rid (name :: rest) resId st sc ns nf nk)).publishes.map
            PublishCall.Message
          = [header ++
             ("Ruleset execution time: " ++
                get_execution_time qr.StartedOn qr.CompletedOn ++ "\n" ++
              "\n\nRuleset details evaluation steps results:\n\n" ++
              String.join (qr.RuleResults.map (fun r => "\n" ++ ruleLine r)))] := by
  intro ct tn db rid name rest resId st sc ns nf nk envStr arn qr pub
  by_cases hct : ct = "GLUE_DATA_CATALOG"
  · subst hct
    refine ⟨headerBlock name tn db rid resId st sc ns nf nk, ?_⟩
    have hbm : buildMessage (HandlerEnv.mk (some envStr) arn) (fun _ => Except.ok qr)
        (mkEvent "GLUE_DATA_CATALOG" tn db rid (name :: rest) resId st sc ns nf nk)
        = (Except.ok (PublishCall.mk arn
            (headerBlock name tn db rid resId st sc ns nf nk ++ bodyTail qr)
            (subjectLine (pyUpper envStr) name)), [resId]) := rfl
    rw [(handler_of_build_ok _ _ pub _ _ _ hbm).2.1]
    rfl
  · refine ⟨"", ?_⟩
    have hpl := preLookup_other ct hct tn db rid (name :: rest) resId st sc ns nf nk
      (some envStr)
    have hbm := buildMessage_of_glue_ok (HandlerEnv.mk (some envStr) arn)
      (fun _ => Except.ok qr)
      (mkEvent ct tn db rid (name :: rest) resId st sc ns nf nk) "" "" resId qr hpl rfl
    rw [(handler_of_build_ok _ _ pub _ _ _ hbm).2.1]
    rfl

/-- Claim C10 (implicit): when the environment label is absent, every
catalog-type event fails with the wrapped error before any lookup or
publish call, while events of any other context type are unaffected by the
missing label and processing completes. -/
theorem C10_missing_environment :
    (∀ (event : Event) (d : EventDetail) (c : EventContext)
       (glue : String → Except PyErr QualityResult)
       (pub : PublishCall → Except PyErr Unit) (arn : Option String),
      event.detail? = some d → d.context? = some c →
      c.contextType? = some "GLUE_DATA_CATALOG" →
      ∃ e : PyErr,
        lambda_handler (HandlerEnv.mk none arn) glue pub event
          = HandlerOutcome.mk (Except.error (WrappedError.mk wrapMsg e)) [] []) ∧
    (∀ ct : String, ct ≠ "GLUE_DATA_CATALOG" →
      ∀ (tn db rid : String) (names : List String) (resId st sc ns nf nk : String)
        (arn : Option String) (qr : QualityResult),
        (lambda_handler (HandlerEnv.mk none arn) (fun _ => Except.ok qr)
            (fun _ => Except.ok ())
            (mkEvent ct tn db rid names resId st sc ns nf nk)).result
          = Except.ok (Response.mk 200 successBody)) := by
  constructor
  · intro event d c glue pub arn hd hc hct
    obtain ⟨e, he⟩ := preLookup_none_env_catalog event d c hd hc hct
    exact ⟨e, handler_of_build_err _ _ _ _ _ _ (buildMessage_of_pre_err _ _ _ _ he)⟩
  · intro ct hct tn db rid names resId st sc ns nf nk arn qr
    have hpl := preLookup_other ct hct tn db rid names resId st sc ns nf nk none
    have hbm := buildMessage_of_glue_ok (HandlerEnv.mk none arn) (fun _ => Except.ok qr)
      (mkEvent ct tn db rid names resId st sc ns nf nk) "" "" resId qr hpl rfl
    rw [(handler_of_build_ok _ _ _ _ _ _ hbm).2.2.1 rfl]

/-- Witness for C10: a concrete catalog event with the environment variable
absent fails with no lookup and no publish, while the same configuration on
an event of context type OTHER succeeds. -/
theorem C10_missing_environment_witness :
    (∃ e : PyErr,
      lambda_handler (HandlerEnv.mk none (some "arn"))
          (fun _ => Except.ok (QualityResult.mk 0 45 [])) (fun _ => Except.ok ())
          (mkEvent "GLUE_DATA_CATALOG" "t" "d" "r" ["rs"] "res-1" "s" "1.0" "1" "0" "0")
        = HandlerOutcome.mk (Except.error (WrappedError.mk wrapMsg e)) [] []) ∧
    (lambda_handler (HandlerEnv.mk none (some "arn"))
        (fun _ => Except.ok (QualityResult.mk 0 45 [])) (fun _ => Except.ok ())
        (mkEvent "OTHER" "t" "d" "r" ["rs"] "res-1" "s" "1.0" "1" "0" "0")).result
      = Except.ok (Response.mk 200 successBody) :=
  ⟨C10_missing_environment.1 _ _ _ _ (fun _ => Except.ok ()) (some "arn") rfl rfl rfl,
   C10_missing_environment.2 "OTHER" (by decide) "t" "d" "r" ["rs"] "res-1" "s" "1.0" "1" "0"
     "0" (some "arn") (QualityResult.mk 0 45 [])⟩

end DQFormatter
